import Mathlib

set_option maxRecDepth 40000

/-!
Shallow embedding of the appointment-booking Azure Functions backend
(source: function_app.py) and verification of its specification claims.

JSON values are modelled by an inductive type; JSON objects and Cosmos
documents by association lists.  The handlers AddUser and AddAppointment
are modelled from the point where the HTTP body has been parsed as JSON:
the CORS preflight branch and the JSON-parse-failure branch are not
needed by any claim.  The random uuid.uuid4() is an injected parameter,
and the Cosmos store is a storeOk flag together with the list of records
the handler commits.

datetime.fromisoformat is modelled after the CPython 3.10 parser (the
code calls .replace with "Z" before parsing, which shows it targets
pre-3.11 Python where a literal Z is not accepted), with two documented
restrictions: numeric components must be plain digit runs (CPython int
also tolerates surrounding whitespace and a sign), and UTC offsets must
have the HH:MM shape (CPython also allows seconds inside offsets).
-/

inductive JsonVal where
  | jNull
  | jBool (b : Bool)
  | jInt (n : Int)
  | jStr (s : String)
  | jArr (elems : List JsonVal)
  | jObj (fields : List (String × JsonVal))

abbrev Dict := List (String × JsonVal)

open JsonVal

/-- Python dict.get: value of the first binding of the key, if any. -/
def dictGet (d : Dict) (k : String) : Option JsonVal :=
  match d with
  | [] => none
  | (k2, v) :: rest => if k = k2 then some v else dictGet rest k

/-- Python truthiness of a JSON value. -/
def pyTruthy : JsonVal → Bool
  | jNull => false
  | jBool b => b
  | jInt n => n != 0
  | jStr s => s != ""
  | jArr elems => !elems.isEmpty
  | jObj fields => !fields.isEmpty

/-- Truthiness of a dict.get result (an absent key gives None, which is falsy). -/
def pyTruthyOpt : Option JsonVal → Bool
  | none => false
  | some v => pyTruthy v

/-! ## Proleptic Gregorian calendar, as used by Python datetime -/

def isLeap (y : Nat) : Bool := (y % 4 == 0 && y % 100 != 0) || y % 400 == 0

def daysInYear (y : Nat) : Nat := if isLeap y then 366 else 365

def daysInMonth (y m : Nat) : Nat :=
  match m with
  | 1 => 31 | 2 => if isLeap y then 29 else 28 | 3 => 31 | 4 => 30
  | 5 => 31 | 6 => 30 | 7 => 31 | 8 => 31 | 9 => 30 | 10 => 31
  | 11 => 30 | 12 => 31 | _ => 0

/-- One extra day in leap years, as a number. -/
def leapN (y : Nat) : Nat := if isLeap y then 1 else 0

def daysBeforeMonth (y m : Nat) : Nat :=
  match m with
  | 1 => 0 | 2 => 31 | 3 => 59 + leapN y | 4 => 90 + leapN y | 5 => 120 + leapN y
  | 6 => 151 + leapN y | 7 => 181 + leapN y | 8 => 212 + leapN y | 9 => 243 + leapN y
  | 10 => 273 + leapN y | 11 => 304 + leapN y | 12 => 334 + leapN y | _ => 0

/-- Days from 0001-01-01 (day number 0) to January 1 of year y. -/
def daysBeforeYear (y : Nat) : Nat :=
  365 * (y - 1) + (y - 1) / 4 + (y - 1) / 400 - (y - 1) / 100

/-- Day number (days since 0001-01-01) of a calendar date. -/
def toDayNumber (y m d : Nat) : Nat :=
  daysBeforeYear y + daysBeforeMonth y m + (d - 1)

/-- Find the year containing day offset n counting from year y; returns the
year together with the remaining day offset inside that year. -/
def yearSearch : Nat → Nat → Nat → Nat × Nat
  | 0, y, n => (y, n)
  | fuel + 1, y, n =>
    if n < daysInYear y then (y, n) else yearSearch fuel (y + 1) (n - daysInYear y)

/-- Month and day-of-month of day offset r (0-based) inside year y. -/
def monthSearch (y r : Nat) : Nat × Nat :=
  if r < 31 then (1, r + 1)
  else if r < 59 + leapN y then (2, r - 31 + 1)
  else if r < 90 + leapN y then (3, r - (59 + leapN y) + 1)
  else if r < 120 + leapN y then (4, r - (90 + leapN y) + 1)
  else if r < 151 + leapN y then (5, r - (120 + leapN y) + 1)
  else if r < 181 + leapN y then (6, r - (151 + leapN y) + 1)
  else if r < 212 + leapN y then (7, r - (181 + leapN y) + 1)
  else if r < 243 + leapN y then (8, r - (212 + leapN y) + 1)
  else if r < 273 + leapN y then (9, r - (243 + leapN y) + 1)
  else if r < 304 + leapN y then (10, r - (273 + leapN y) + 1)
  else if r < 334 + leapN y then (11, r - (304 + leapN y) + 1)
  else (12, r - (334 + leapN y) + 1)

/-- Calendar date (year, month, day) of a day number. -/
def fromDayNumber (n : Nat) : Nat × Nat × Nat :=
  ((yearSearch 9999 1 n).1,
   (monthSearch (yearSearch 9999 1 n).1 (yearSearch 9999 1 n).2).1,
   (monthSearch (yearSearch 9999 1 n).1 (yearSearch 9999 1 n).2).2)

/-- A Python datetime value: calendar fields plus an optional UTC offset in
whole minutes (None models a naive datetime). -/
structure PyDateTime where
  year : Nat
  month : Nat
  day : Nat
  hour : Nat
  minute : Nat
  second : Nat
  usecond : Nat
  tz : Option Int

/-- Wall-clock instant of a datetime in minutes since 0001-01-01T00:00
(seconds and microseconds are unaffected by minute arithmetic). -/
def toTotalMinutes (dt : PyDateTime) : Nat :=
  toDayNumber dt.year dt.month dt.day * 1440 + dt.hour * 60 + dt.minute

/-- First minute beyond datetime.max (year 9999): adding past it raises
OverflowError in Python. -/
def maxTotalMinutes : Nat := daysBeforeYear 10000 * 1440

/-- Python `dt + timedelta(minutes=k)`: plain wall-clock arithmetic; the
tzinfo, seconds and microseconds are carried over unchanged.  None models
the OverflowError raised beyond datetime.max. -/
def addMinutes (k : Nat) (dt : PyDateTime) : Option PyDateTime :=
  if toTotalMinutes dt + k < maxTotalMinutes then
    some ⟨(fromDayNumber ((toTotalMinutes dt + k) / 1440)).1,
          (fromDayNumber ((toTotalMinutes dt + k) / 1440)).2.1,
          (fromDayNumber ((toTotalMinutes dt + k) / 1440)).2.2,
          (toTotalMinutes dt + k) % 1440 / 60, (toTotalMinutes dt + k) % 60,
          dt.second, dt.usecond, dt.tz⟩
  else none

/-! ## CPython 3.10 datetime.fromisoformat model -/

def digitVal (c : Char) : Nat := c.toNat - 48

def twoDigits (a b : Char) : Option Nat :=
  if a.isDigit && b.isDigit then some (digitVal a * 10 + digitVal b) else none

/-- The _parse_isoformat_date helper: exactly YYYY-MM-DD, all digits. -/
def parseDate : List Char → Option (Nat × Nat × Nat)
  | [y1, y2, y3, y4, s1, m1, m2, s2, d1, d2] =>
    if s1 == '-' && s2 == '-' && y1.isDigit && y2.isDigit && y3.isDigit && y4.isDigit
        && m1.isDigit && m2.isDigit && d1.isDigit && d2.isDigit then
      some (digitVal y1 * 1000 + digitVal y2 * 100 + digitVal y3 * 10 + digitVal y4,
            digitVal m1 * 10 + digitVal m2, digitVal d1 * 10 + digitVal d2)
    else none
  | _ => none

/-- The _parse_hh_mm_ss_ff helper: the shapes HH, HH:MM, HH:MM:SS,
HH:MM:SS.fff and HH:MM:SS.ffffff; a 3-digit fraction is milliseconds. -/
def parseHMSFF : List Char → Option (Nat × Nat × Nat × Nat)
  | [a, b] => (twoDigits a b).map fun h => (h, 0, 0, 0)
  | [a, b, c1, c, d] =>
    if c1 == ':' then
      match twoDigits a b, twoDigits c d with
      | some h, some m => some (h, m, 0, 0)
      | _, _ => none
    else none
  | [a, b, c1, c, d, c2, e, f] =>
    if c1 == ':' && c2 == ':' then
      match twoDigits a b, twoDigits c d, twoDigits e f with
      | some h, some m, some s => some (h, m, s, 0)
      | _, _, _ => none
    else none
  | [a, b, c1, c, d, c2, e, f, p, x1, x2, x3] =>
    if c1 == ':' && c2 == ':' && p == '.' && x1.isDigit && x2.isDigit && x3.isDigit then
      match twoDigits a b, twoDigits c d, twoDigits e f with
      | some h, some m, some s =>
        some (h, m, s, (digitVal x1 * 100 + digitVal x2 * 10 + digitVal x3) * 1000)
      | _, _, _ => none
    else none
  | [a, b, c1, c, d, c2, e, f, p, x1, x2, x3, x4, x5, x6] =>
    if c1 == ':' && c2 == ':' && p == '.' && x1.isDigit && x2.isDigit && x3.isDigit
        && x4.isDigit && x5.isDigit && x6.isDigit then
      match twoDigits a b, twoDigits c d, twoDigits e f with
      | some h, some m, some s =>
        some (h, m, s, digitVal x1 * 100000 + digitVal x2 * 10000 + digitVal x3 * 1000
              + digitVal x4 * 100 + digitVal x5 * 10 + digitVal x6)
      | _, _, _ => none
    else none
  | _ => none

def findPos (c : Char) : List Char → Option Nat
  | [] => none
  | x :: xs => if x = c then some 0 else (findPos c xs).map (· + 1)

/-- The _parse_isoformat_time helper.  The tz marker is the first minus
sign anywhere in the time string, else the first plus sign; the offset
must be strictly below 24 hours (model restriction: only the 5-character
HH:MM offset shape; CPython also accepts lengths 8 and 15). -/
def parseTimePart (ts : List Char) : Option (Nat × Nat × Nat × Nat × Option Int) :=
  if ts.length < 2 then none
  else
    let tzSplit : Option (Nat × Bool) :=
      match findPos '-' ts with
      | some i => some (i, true)
      | none => (findPos '+' ts).map fun i => (i, false)
    match tzSplit with
    | none => (parseHMSFF ts).map fun x => (x.1, x.2.1, x.2.2.1, x.2.2.2, none)
    | some (i, neg) =>
      match parseHMSFF (ts.take i) with
      | none => none
      | some (h, m, s, us) =>
        let tzstr := ts.drop (i + 1)
        if tzstr.length = 5 then
          match parseHMSFF tzstr with
          | some (th, tm, _, _) =>
            if th * 60 + tm < 1440 then
              some (h, m, s, us,
                some (if neg then -((th * 60 + tm : Nat) : Int) else ((th * 60 + tm : Nat) : Int)))
            else none
          | none => none
        else none

/-- CPython 3.10 datetime.fromisoformat: the date is the first 10
characters, the character at index 10 (the separator) is ignored, the
time is everything from index 11 on (empty means midnight); field ranges
are validated by the datetime constructor. -/
def fromisoformat (s : String) : Option PyDateTime :=
  match parseDate (s.data.take 10) with
  | none => none
  | some (y, mo, d) =>
    let tstr := s.data.drop 11
    let tp : Option (Nat × Nat × Nat × Nat × Option Int) :=
      if tstr.isEmpty then some (0, 0, 0, 0, none) else parseTimePart tstr
    match tp with
    | none => none
    | some (h, mi, sec, us, off) =>
      if 1 ≤ y ∧ 1 ≤ mo ∧ mo ≤ 12 ∧ 1 ≤ d ∧ d ≤ daysInMonth y mo
          ∧ h ≤ 23 ∧ mi ≤ 59 ∧ sec ≤ 59 then
        some ⟨y, mo, d, h, mi, sec, us, off⟩
      else none

/-! ## Rendering (datetime.isoformat) and str.replace -/

def digitChar (n : Nat) : Char :=
  match n with
  | 0 => '0' | 1 => '1' | 2 => '2' | 3 => '3' | 4 => '4'
  | 5 => '5' | 6 => '6' | 7 => '7' | 8 => '8' | _ => '9'

def pad2 (n : Nat) : String := String.mk [digitChar (n / 10 % 10), digitChar (n % 10)]

def pad4 (n : Nat) : String :=
  String.mk [digitChar (n / 1000 % 10), digitChar (n / 100 % 10),
             digitChar (n / 10 % 10), digitChar (n % 10)]

def pad6 (n : Nat) : String :=
  String.mk [digitChar (n / 100000 % 10), digitChar (n / 10000 % 10),
             digitChar (n / 1000 % 10), digitChar (n / 100 % 10),
             digitChar (n / 10 % 10), digitChar (n % 10)]

/-- Python datetime.isoformat(): microseconds only when nonzero, the UTC
offset as a signed HH:MM suffix only on aware datetimes. -/
def isoformatDT (dt : PyDateTime) : String :=
  pad4 dt.year ++ "-" ++ pad2 dt.month ++ "-" ++ pad2 dt.day ++ "T"
    ++ pad2 dt.hour ++ ":" ++ pad2 dt.minute ++ ":" ++ pad2 dt.second
    ++ (if dt.usecond != 0 then "." ++ pad6 dt.usecond else "")
    ++ (match dt.tz with
        | none => ""
        | some off =>
          (if off < 0 then "-" else "+") ++ pad2 (off.natAbs / 60) ++ ":" ++ pad2 (off.natAbs % 60))

/-- Replace every non-overlapping occurrence of pat, scanning left to
right (Python str.replace); the fuel is the length of the scanned list. -/
def replaceChars (pat rep : List Char) : Nat → List Char → List Char
  | _, [] => []
  | 0, cs => cs
  | fuel + 1, c :: cs =>
    if pat ≠ [] ∧ pat.isPrefixOf (c :: cs) then
      rep ++ replaceChars pat rep fuel ((c :: cs).drop pat.length)
    else
      c :: replaceChars pat rep fuel cs

def pyReplace (s pat rep : String) : String :=
  String.mk (replaceChars pat.data rep.data s.data.length s.data)

def endsWithZ (s : String) : Bool := s.data.getLast? == some 'Z'

/-! ## The handlers -/

def TENANT_ID_VALUE : String := "main_tenant"

inductive Outcome where
  | missingField
  | malformedTimestamp
  | created (record : Dict)
  | storeError
  | unhandledError

/-- The outcome of one request together with the records the store
committed while serving it. -/
structure HandlerResult where
  outcome : Outcome
  writes : List Dict

/-- HTTP status of each outcome (an uncaught exception is turned into a
500 by the Azure Functions runtime). -/
def statusOf : Outcome → Nat
  | .missingField => 400
  | .malformedTimestamp => 400
  | .created _ => 201
  | .storeError => 500
  | .unhandledError => 500

/-- The fixed default_availability dict built inside AddUser. -/
def defaultAvailability : JsonVal :=
  jObj [("days", jArr [jStr "Mon", jStr "Tue", jStr "Wed", jStr "Thu", jStr "Fri"]),
        ("start_time", jStr "08:00"), ("end_time", jStr "16:00")]

/-- The AddUser handler, from the point where the JSON body is parsed;
uuid is the freshly generated uuid4 string, storeOk the store outcome. -/
def AddUser (body : Dict) (uuid : String) (storeOk : Bool) : HandlerResult :=
  let name := dictGet body "name"
  let email := dictGet body "email"
  if !(pyTruthyOpt name) || !(pyTruthyOpt email) then
    ⟨.missingField, []⟩
  else
    let newUser : Dict :=
      [("id", jStr uuid),
       ("name", name.getD jNull),
       ("email", email.getD jNull),
       ("availability", defaultAvailability),
       ("TenantId", jStr TENANT_ID_VALUE)]
    if storeOk then ⟨.created newUser, [newUser]⟩ else ⟨.storeError, []⟩

/-- The AddAppointment handler.  It reads the JSON key start_time_iso,
always adds timedelta(minutes=30), stores the raw start string, and
renders the end as isoformat() with "+00:00" replaced by "Z".  A truthy
non-string start value makes .replace raise AttributeError, which the
except ValueError clause does not catch (unhandledError). -/
def AddAppointment (body : Dict) (uuid : String) (storeOk : Bool) : HandlerResult :=
  let user_id := dictGet body "user_id"
  let client_name := dictGet body "client_name"
  let start_time_iso := dictGet body "start_time_iso"
  if !(pyTruthyOpt user_id) || !(pyTruthyOpt start_time_iso) || !(pyTruthyOpt client_name) then
    ⟨.missingField, []⟩
  else
    match start_time_iso with
    | some (jStr s) =>
      match fromisoformat (pyReplace s "Z" "+00:00") with
      | none => ⟨.malformedTimestamp, []⟩
      | some start_dt =>
        match addMinutes 30 start_dt with
        | none => ⟨.unhandledError, []⟩
        | some end_dt =>
          let newAppointment : Dict :=
            [("id", jStr uuid),
             ("user_id", (dictGet body "user_id").getD jNull),
             ("client_name", (dictGet body "client_name").getD jNull),
             ("start_time", jStr s),
             ("end_time", jStr (pyReplace (isoformatDT end_dt) "+00:00" "Z")),
             ("TenantId", jStr TENANT_ID_VALUE)]
          if storeOk then ⟨.created newAppointment, [newAppointment]⟩ else ⟨.storeError, []⟩
    | _ => ⟨.unhandledError, []⟩

/-- The projection inside the GetUsers list comprehension. -/
def projUser (u : Dict) : Dict :=
  [("id", (dictGet u "id").getD jNull), ("name", (dictGet u "name").getD jNull)]

/-- The GetUsers response shaping: the list comprehension over the records
fetched from the tenant partition, keeping records whose name key exists
and is truthy, projecting each to id and name. -/
def GetUsers : List Dict → List Dict
  | [] => []
  | u :: rest =>
    if (dictGet u "name").isSome && pyTruthy ((dictGet u "name").getD jNull) then
      projUser u :: GetUsers rest
    else
      GetUsers rest

/-- Extract the created record of an outcome, if any. -/
def createdRec (h : HandlerResult) : Option Dict :=
  match h.outcome with
  | .created r => some r
  | _ => none

/-! ## Correctness of the calendar arithmetic -/

lemma daysBeforeYear_succ (y : Nat) (hy : 1 ≤ y) :
    daysBeforeYear (y + 1) = daysBeforeYear y + daysInYear y := by
  unfold daysBeforeYear daysInYear isLeap
  simp only [Nat.add_sub_cancel, Bool.or_eq_true, Bool.and_eq_true, beq_iff_eq,
    bne_iff_ne, ne_eq]
  split_ifs with hl
  · rcases hl with ⟨h4, h100⟩ | h400 <;> omega
  · push_neg at hl
    by_cases h4 : y % 4 = 0
    · have h100 := hl.1 h4
      omega
    · omega

lemma yearSearch_spec (fuel : Nat) : ∀ y n : Nat, 1 ≤ y →
    n + daysBeforeYear y < daysBeforeYear (y + fuel) + daysInYear (y + fuel) →
    daysBeforeYear (yearSearch fuel y n).1 + (yearSearch fuel y n).2 = daysBeforeYear y + n ∧
    (yearSearch fuel y n).2 < daysInYear (yearSearch fuel y n).1 ∧
    1 ≤ (yearSearch fuel y n).1 := by
  induction fuel with
  | zero =>
    intro y n hy hb
    simp only [Nat.add_zero] at hb
    simp only [yearSearch]
    exact ⟨trivial, by omega, hy⟩
  | succ fuel ih =>
    intro y n hy hb
    simp only [yearSearch]
    split
    · rename_i h
      exact ⟨rfl, h, hy⟩
    · rename_i h
      have hs := daysBeforeYear_succ y hy
      have e1 : y + 1 + fuel = y + (fuel + 1) := by omega
      have hr := ih (y + 1) (n - daysInYear y) (by omega) (by rw [e1]; omega)
      omega

lemma leapN_le_one (y : Nat) : leapN y ≤ 1 := by
  unfold leapN
  split <;> omega

lemma daysInYear_eq (y : Nat) : daysInYear y = 365 + leapN y := by
  unfold daysInYear leapN
  split <;> omega

lemma monthSearch_spec (y r : Nat) (hr : r < daysInYear y) :
    ∃ m d, monthSearch y r = (m, d) ∧ daysBeforeMonth y m + (d - 1) = r := by
  rw [daysInYear_eq] at hr
  have h01 := leapN_le_one y
  rcases Nat.lt_or_ge r (31) with h1 | h1
  · refine ⟨1, r + 1, ?_, ?_⟩
    · unfold monthSearch
      rw [if_pos h1]
    · have e : daysBeforeMonth y 1 = 0 := rfl
      omega
  · rcases Nat.lt_or_ge r (59 + leapN y) with h2 | h2
    · refine ⟨2, r - 31 + 1, ?_, ?_⟩
      · unfold monthSearch
        rw [if_neg (by omega : ¬ r < 31), if_pos h2]
      · have e : daysBeforeMonth y 2 = 31 := rfl
        omega
    · rcases Nat.lt_or_ge r (90 + leapN y) with h3 | h3
      · refine ⟨3, r - (59 + leapN y) + 1, ?_, ?_⟩
        · unfold monthSearch
          rw [if_neg (by omega : ¬ r < 31), if_neg (by omega : ¬ r < 59 + leapN y), if_pos h3]
        · have e : daysBeforeMonth y 3 = 59 + leapN y := rfl
          omega
      · rcases Nat.lt_or_ge r (120 + leapN y) with h4 | h4
        · refine ⟨4, r - (90 + leapN y) + 1, ?_, ?_⟩
          · unfold monthSearch
            rw [if_neg (by omega : ¬ r < 31), if_neg (by omega : ¬ r < 59 + leapN y), if_neg (by omega : ¬ r < 90 + leapN y), if_pos h4]
          · have e : daysBeforeMonth y 4 = 90 + leapN y := rfl
            omega
        · rcases Nat.lt_or_ge r (151 + leapN y) with h5 | h5
          · refine ⟨5, r - (120 + leapN y) + 1, ?_, ?_⟩
            · unfold monthSearch
              rw [if_neg (by omega : ¬ r < 31), if_neg (by omega : ¬ r < 59 + leapN y), if_neg (by omega : ¬ r < 90 + leapN y), if_neg (by omega : ¬ r < 120 + leapN y), if_pos h5]
            · have e : daysBeforeMonth y 5 = 120 + leapN y := rfl
              omega
          · rcases Nat.lt_or_ge r (181 + leapN y) with h6 | h6
            · refine ⟨6, r - (151 + leapN y) + 1, ?_, ?_⟩
              · unfold monthSearch
                rw [if_neg (by omega : ¬ r < 31), if_neg (by omega : ¬ r < 59 + leapN y), if_neg (by omega : ¬ r < 90 + leapN y), if_neg (by omega : ¬ r < 120 + leapN y), if_neg (by omega : ¬ r < 151 + leapN y), if_pos h6]
              · have e : daysBeforeMonth y 6 = 151 + leapN y := rfl
                omega
            · rcases Nat.lt_or_ge r (212 + leapN y) with h7 | h7
              · refine ⟨7, r - (181 + leapN y) + 1, ?_, ?_⟩
                · unfold monthSearch
                  rw [if_neg (by omega : ¬ r < 31), if_neg (by omega : ¬ r < 59 + leapN y), if_neg (by omega : ¬ r < 90 + leapN y), if_neg (by omega : ¬ r < 120 + leapN y), if_neg (by omega : ¬ r < 151 + leapN y), if_neg (by omega : ¬ r < 181 + leapN y), if_pos h7]
                · have e : daysBeforeMonth y 7 = 181 + leapN y := rfl
                  omega
              · rcases Nat.lt_or_ge r (243 + leapN y) with h8 | h8
                · refine ⟨8, r - (212 + leapN y) + 1, ?_, ?_⟩
                  · unfold monthSearch
                    rw [if_neg (by omega : ¬ r < 31), if_neg (by omega : ¬ r < 59 + leapN y), if_neg (by omega : ¬ r < 90 + leapN y), if_neg (by omega : ¬ r < 120 + leapN y), if_neg (by omega : ¬ r < 151 + leapN y), if_neg (by omega : ¬ r < 181 + leapN y), if_neg (by omega : ¬ r < 212 + leapN y), if_pos h8]
                  · have e : daysBeforeMonth y 8 = 212 + leapN y := rfl
                    omega
                · rcases Nat.lt_or_ge r (273 + leapN y) with h9 | h9
                  · refine ⟨9, r - (243 + leapN y) + 1, ?_, ?_⟩
                    · unfold monthSearch
                      rw [if_neg (by omega : ¬ r < 31), if_neg (by omega : ¬ r < 59 + leapN y), if_neg (by omega : ¬ r < 90 + leapN y), if_neg (by omega : ¬ r < 120 + leapN y), if_neg (by omega : ¬ r < 151 + leapN y), if_neg (by omega : ¬ r < 181 + leapN y), if_neg (by omega : ¬ r < 212 + leapN y), if_neg (by omega : ¬ r < 243 + leapN y), if_pos h9]
                    · have e : daysBeforeMonth y 9 = 243 + leapN y := rfl
                      omega
                  · rcases Nat.lt_or_ge r (304 + leapN y) with h10 | h10
                    · refine ⟨10, r - (273 + leapN y) + 1, ?_, ?_⟩
                      · unfold monthSearch
                        rw [if_neg (by omega : ¬ r < 31), if_neg (by omega : ¬ r < 59 + leapN y), if_neg (by omega : ¬ r < 90 + leapN y), if_neg (by omega : ¬ r < 120 + leapN y), if_neg (by omega : ¬ r < 151 + leapN y), if_neg (by omega : ¬ r < 181 + leapN y), if_neg (by omega : ¬ r < 212 + leapN y), if_neg (by omega : ¬ r < 243 + leapN y), if_neg (by omega : ¬ r < 273 + leapN y), if_pos h10]
                      · have e : daysBeforeMonth y 10 = 273 + leapN y := rfl
                        omega
                    · rcases Nat.lt_or_ge r (334 + leapN y) with h11 | h11
                      · refine ⟨11, r - (304 + leapN y) + 1, ?_, ?_⟩
                        · unfold monthSearch
                          rw [if_neg (by omega : ¬ r < 31), if_neg (by omega : ¬ r < 59 + leapN y), if_neg (by omega : ¬ r < 90 + leapN y), if_neg (by omega : ¬ r < 120 + leapN y), if_neg (by omega : ¬ r < 151 + leapN y), if_neg (by omega : ¬ r < 181 + leapN y), if_neg (by omega : ¬ r < 212 + leapN y), if_neg (by omega : ¬ r < 243 + leapN y), if_neg (by omega : ¬ r < 273 + leapN y), if_neg (by omega : ¬ r < 304 + leapN y), if_pos h11]
                        · have e : daysBeforeMonth y 11 = 304 + leapN y := rfl
                          omega
                      · refine ⟨12, r - (334 + leapN y) + 1, ?_, ?_⟩
                        · unfold monthSearch
                          rw [if_neg (by omega : ¬ r < 31), if_neg (by omega : ¬ r < 59 + leapN y), if_neg (by omega : ¬ r < 90 + leapN y), if_neg (by omega : ¬ r < 120 + leapN y), if_neg (by omega : ¬ r < 151 + leapN y), if_neg (by omega : ¬ r < 181 + leapN y), if_neg (by omega : ¬ r < 212 + leapN y), if_neg (by omega : ¬ r < 243 + leapN y), if_neg (by omega : ¬ r < 273 + leapN y), if_neg (by omega : ¬ r < 304 + leapN y), if_neg (by omega : ¬ r < 334 + leapN y)]
                        · have e : daysBeforeMonth y 12 = 334 + leapN y := rfl
                          omega

lemma fromDayNumber_spec (n : Nat) (hn : n < daysBeforeYear 10000) :
    toDayNumber (fromDayNumber n).1 (fromDayNumber n).2.1 (fromDayNumber n).2.2 = n := by
  have h1 : daysBeforeYear 1 = 0 := by rfl
  have e1 : (1 : Nat) + 9999 = 10000 := by norm_num
  have hys := yearSearch_spec 9999 1 n (by norm_num) (by rw [e1]; omega)
  obtain ⟨m, d, heq, hsum⟩ :=
    monthSearch_spec (yearSearch 9999 1 n).1 (yearSearch 9999 1 n).2 hys.2.1
  unfold fromDayNumber toDayNumber
  rw [heq]
  dsimp only
  omega

lemma addMinutes_total (k : Nat) (dt e : PyDateTime) (h : addMinutes k dt = some e) :
    toTotalMinutes e = toTotalMinutes dt + k ∧
    e.second = dt.second ∧ e.usecond = dt.usecond ∧ e.tz = dt.tz := by
  unfold addMinutes at h
  split at h
  · rename_i hlt
    have hdiv : (toTotalMinutes dt + k) / 1440 < daysBeforeYear 10000 := by
      unfold maxTotalMinutes at hlt
      omega
    have hrt := fromDayNumber_spec ((toTotalMinutes dt + k) / 1440) hdiv
    cases h
    unfold toTotalMinutes at hrt ⊢
    dsimp only
    refine ⟨by omega, rfl, rfl, rfl⟩
  · exact absurd h (by simp)

/-! ## Shared helpers for the claim theorems -/

/-- A required field is absent from the body or bound to the empty string. -/
def absentOrEmpty (o : Option JsonVal) : Prop := o = none ∨ o = some (jStr "")

lemma absentOrEmpty_falsy (o : Option JsonVal) (h : absentOrEmpty o) :
    pyTruthyOpt o = false := by
  rcases h with rfl | rfl <;> rfl

lemma GetUsers_keys (l : List Dict) :
    (GetUsers l).all (fun r => r.map Prod.fst == ["id", "name"]) = true := by
  induction l with
  | nil => rfl
  | cons u rest ih =>
    simp only [GetUsers]
    split
    · simp only [List.all_cons, ih, Bool.and_true]
      rfl
    · exact ih

lemma GetUsers_skip (r : Dict) (hr : dictGet r "name" = none) :
    ∀ l1 l2 : List Dict, GetUsers (l1 ++ r :: l2) = GetUsers (l1 ++ l2) := by
  intro l1
  induction l1 with
  | nil =>
    intro l2
    simp only [List.nil_append, GetUsers, hr]
    simp
  | cons u rest ih =>
    intro l2
    simp only [List.cons_append, GetUsers, List.append_eq]
    rw [ih]

/-! ## Claim C1 -/

/-- Claim C1 as stated is false: the handler never reads duration_minutes
and always adds 30 minutes.  At a valid request carrying duration_minutes
60 and start 2024-01-01T10:00:00Z, the stored end_time is
2024-01-01T10:30:00Z, while start plus 60 minutes renders as
2024-01-01T11:00:00Z. -/
theorem C1_counterexample :
    (createdRec (AddAppointment
        [("user_id", jStr "u1"), ("client_name", jStr "Bob"),
         ("start_time_iso", jStr "2024-01-01T10:00:00Z"), ("duration_minutes", jInt 60)]
        "id-1" true)).bind (fun r => dictGet r "end_time")
        = some (jStr "2024-01-01T10:30:00Z") ∧
    ((fromisoformat (pyReplace "2024-01-01T10:00:00Z" "Z" "+00:00")).bind
        (addMinutes 60)).map (fun e => pyReplace (isoformatDT e) "+00:00" "Z")
        = some "2024-01-01T11:00:00Z" ∧
    ("2024-01-01T10:30:00Z" : String) ≠ "2024-01-01T11:00:00Z" := by
  exact ⟨rfl, rfl, by decide⟩

/-- Claim C1, amended: for every accepted appointment-creation request the
record's end_time is the rendering of the parsed start time plus exactly
30 minutes (the instant moves by exactly 30 minutes and the UTC offset is
carried over), regardless of any duration_minutes value in the request. -/
theorem C1_amended (body : Dict) (uuid : String) (storeOk : Bool) (r : Dict)
    (h : (AddAppointment body uuid storeOk).outcome = .created r) :
    ∃ s dt end_dt, dictGet body "start_time_iso" = some (jStr s) ∧
      fromisoformat (pyReplace s "Z" "+00:00") = some dt ∧
      addMinutes 30 dt = some end_dt ∧
      dictGet r "end_time" = some (jStr (pyReplace (isoformatDT end_dt) "+00:00" "Z")) ∧
      toTotalMinutes end_dt = toTotalMinutes dt + 30 ∧ end_dt.tz = dt.tz := by
  simp only [AddAppointment] at h
  split at h
  · simp at h
  · split at h
    · rename_i s heq
      split at h
      · simp at h
      · rename_i start_dt hpar
        split at h
        · simp at h
        · rename_i end_dt hadd
          split at h
          · simp only at h
            cases h
            exact ⟨s, start_dt, end_dt, heq, hpar, hadd, rfl,
              (addMinutes_total 30 start_dt end_dt hadd).1,
              (addMinutes_total 30 start_dt end_dt hadd).2.2.2⟩
          · simp at h
    · simp at h

/-- Witness for C1_amended at a concrete accepted request. -/
theorem C1_amended_witness :
    ∃ s dt end_dt,
      dictGet [("user_id", jStr "u1"), ("client_name", jStr "Ann"),
               ("start_time_iso", jStr "2024-03-10T09:15:00Z")] "start_time_iso"
          = some (jStr s) ∧
      fromisoformat (pyReplace s "Z" "+00:00") = some dt ∧
      addMinutes 30 dt = some end_dt ∧
      dictGet [("id", jStr "w1"), ("user_id", jStr "u1"), ("client_name", jStr "Ann"),
               ("start_time", jStr "2024-03-10T09:15:00Z"),
               ("end_time", jStr "2024-03-10T09:45:00Z"),
               ("TenantId", jStr TENANT_ID_VALUE)] "end_time"
          = some (jStr (pyReplace (isoformatDT end_dt) "+00:00" "Z")) ∧
      toTotalMinutes end_dt = toTotalMinutes dt + 30 ∧ end_dt.tz = dt.tz := by
  exact C1_amended
    [("user_id", jStr "u1"), ("client_name", jStr "Ann"),
     ("start_time_iso", jStr "2024-03-10T09:15:00Z")] "w1" true
    [("id", jStr "w1"), ("user_id", jStr "u1"), ("client_name", jStr "Ann"),
     ("start_time", jStr "2024-03-10T09:15:00Z"),
     ("end_time", jStr "2024-03-10T09:45:00Z"),
     ("TenantId", jStr TENANT_ID_VALUE)] rfl

/-! ## Claim C2 -/

/-- Claim C2 as stated is false: the appointment record built by the
handler contains no duration_minutes key at all, so with
duration_minutes omitted from a valid request the stored record does not
contain duration_minutes equal to 30. -/
theorem C2_counterexample :
    (createdRec (AddAppointment
        [("user_id", jStr "u1"), ("client_name", jStr "Bob"),
         ("start_time_iso", jStr "2024-01-01T10:00:00Z")]
        "id-2" true)).bind (fun r => dictGet r "duration_minutes") = none ∧
    (none : Option JsonVal) ≠ some (jInt 30) := by
  exact ⟨rfl, fun hx => Option.noConfusion hx⟩

/-- Claim C2, amended: every appointment record the handler creates lacks
the duration_minutes field entirely (the 30-minute default exists only
implicitly, in the end-time computation shown by C1_amended). -/
theorem C2_amended (body : Dict) (uuid : String) (storeOk : Bool) (r : Dict)
    (h : (AddAppointment body uuid storeOk).outcome = .created r) :
    dictGet r "duration_minutes" = none := by
  simp only [AddAppointment] at h
  split at h
  · simp at h
  · split at h
    · rename_i s heq
      split at h
      · simp at h
      · split at h
        · simp at h
        · split at h
          · simp only at h
            cases h
            rfl
          · simp at h
    · simp at h

/-- Witness for C2_amended at a concrete accepted request. -/
theorem C2_amended_witness :
    dictGet [("id", jStr "w2"), ("user_id", jStr "u1"), ("client_name", jStr "Bob"),
             ("start_time", jStr "2024-01-01T10:00:00Z"),
             ("end_time", jStr "2024-01-01T10:30:00Z"),
             ("TenantId", jStr TENANT_ID_VALUE)] "duration_minutes" = none := by
  exact C2_amended
    [("user_id", jStr "u1"), ("client_name", jStr "Bob"),
     ("start_time_iso", jStr "2024-01-01T10:00:00Z")] "w2" true
    [("id", jStr "w2"), ("user_id", jStr "u1"), ("client_name", jStr "Bob"),
     ("start_time", jStr "2024-01-01T10:00:00Z"),
     ("end_time", jStr "2024-01-01T10:30:00Z"),
     ("TenantId", jStr TENANT_ID_VALUE)] rfl

/-! ## Claim C3 -/

/-- Claim C3 concerns a code bug: a POST body that supplies non-empty
user_id, client_name and start_time (the field name given by the
interface table, the end-to-end example, and the handler's own error
message) is rejected with the 400 missing-field response, because the
code reads the JSON key start_time_iso instead of start_time. -/
theorem C3_code_behavior :
    AddAppointment
        [("user_id", jStr "abc"), ("client_name", jStr "Bob"),
         ("start_time", jStr "2024-01-01T10:00:00Z")] "id-3" true
      = ⟨.missingField, []⟩ ∧ statusOf .missingField = 400 := by
  exact ⟨rfl, rfl⟩

/-! ## Claim C4 -/

/-- Claim C4 as stated is false: the stored start_time is the raw client
string, not a UTC-normalized form.  The accepted request with start time
2024-01-01T10:00:00+02:00 stores exactly that string, which does not end
with Z. -/
theorem C4_counterexample :
    (createdRec (AddAppointment
        [("user_id", jStr "u"), ("client_name", jStr "B"),
         ("start_time_iso", jStr "2024-01-01T10:00:00+02:00")]
        "id-4" true)).bind (fun r => dictGet r "start_time")
        = some (jStr "2024-01-01T10:00:00+02:00") ∧
    endsWithZ "2024-01-01T10:00:00+02:00" = false := by
  exact ⟨rfl, rfl⟩

/-- Claim C4, amended: the record's start_time equals the request's
start_time_iso value verbatim; no normalization to UTC is applied, so it
carries a trailing Z exactly when the input did. -/
theorem C4_amended (body : Dict) (uuid : String) (storeOk : Bool) (r : Dict)
    (h : (AddAppointment body uuid storeOk).outcome = .created r) :
    dictGet r "start_time" = dictGet body "start_time_iso" := by
  simp only [AddAppointment] at h
  split at h
  · simp at h
  · split at h
    · rename_i s heq
      split at h
      · simp at h
      · split at h
        · simp at h
        · split at h
          · simp only at h
            cases h
            rw [heq]
            rfl
          · simp at h
    · simp at h

/-- Witness for C4_amended at a concrete accepted request. -/
theorem C4_amended_witness :
    dictGet [("id", jStr "w4"), ("user_id", jStr "u"), ("client_name", jStr "B"),
             ("start_time", jStr "2024-01-01T10:00:00+02:00"),
             ("end_time", jStr "2024-01-01T10:30:00+02:00"),
             ("TenantId", jStr TENANT_ID_VALUE)] "start_time"
      = dictGet [("user_id", jStr "u"), ("client_name", jStr "B"),
                 ("start_time_iso", jStr "2024-01-01T10:00:00+02:00")] "start_time_iso" := by
  exact C4_amended
    [("user_id", jStr "u"), ("client_name", jStr "B"),
     ("start_time_iso", jStr "2024-01-01T10:00:00+02:00")] "w4" true
    [("id", jStr "w4"), ("user_id", jStr "u"), ("client_name", jStr "B"),
     ("start_time", jStr "2024-01-01T10:00:00+02:00"),
     ("end_time", jStr "2024-01-01T10:30:00+02:00"),
     ("TenantId", jStr TENANT_ID_VALUE)] rfl

/-! ## Claim C5 -/

/-- Claim C5 as stated is false: a request whose start-time value is
present and truthy but not a string (here the JSON number 5, which does
not parse as ISO 8601) makes the handler raise AttributeError on
.replace, an unhandled failure, not the MalformedTimestamp 400. -/
theorem C5_counterexample :
    (AddAppointment
        [("user_id", jStr "u"), ("client_name", jStr "B"), ("start_time_iso", jInt 5)]
        "id-5" true).outcome = .unhandledError ∧
    Outcome.unhandledError ≠ Outcome.malformedTimestamp := by
  exact ⟨rfl, fun hx => Outcome.noConfusion hx⟩

/-- Claim C5, amended: when user_id and client_name are present and
truthy and the start-time value is a non-empty string that fails to
parse (fromisoformat after the Z replacement), the handler returns
exactly the MalformedTimestamp 400 outcome. -/
theorem C5_amended (body : Dict) (uuid : String) (storeOk : Bool) (s : String)
    (hu : pyTruthyOpt (dictGet body "user_id") = true)
    (hc : pyTruthyOpt (dictGet body "client_name") = true)
    (hs : dictGet body "start_time_iso" = some (jStr s))
    (hne : s ≠ "")
    (hbad : fromisoformat (pyReplace s "Z" "+00:00") = none) :
    (AddAppointment body uuid storeOk).outcome = .malformedTimestamp := by
  simp only [AddAppointment, hs, hu, hc, hbad]
  simp [pyTruthyOpt, pyTruthy, hne]

/-- Witness for C5_amended at the concrete unparsable string not-a-date. -/
theorem C5_amended_witness :
    (AddAppointment
        [("user_id", jStr "u"), ("client_name", jStr "B"),
         ("start_time_iso", jStr "not-a-date")] "w5" true).outcome
      = .malformedTimestamp := by
  exact C5_amended
    [("user_id", jStr "u"), ("client_name", jStr "B"),
     ("start_time_iso", jStr "not-a-date")] "w5" true "not-a-date"
    rfl rfl rfl (by decide) rfl

/-! ## Claim C6 -/

/-- Claim C6: whenever a required field is absent or empty (name or email
for AddUser; user_id, client_name or the start-time field for
AddAppointment), the handler returns the 400 missing-field response and
commits nothing to the store. -/
theorem C6_thm (body : Dict) (uuid : String) (storeOk : Bool) :
    ((absentOrEmpty (dictGet body "name") ∨ absentOrEmpty (dictGet body "email")) →
      AddUser body uuid storeOk = ⟨.missingField, []⟩) ∧
    ((absentOrEmpty (dictGet body "user_id") ∨ absentOrEmpty (dictGet body "client_name") ∨
      absentOrEmpty (dictGet body "start_time_iso")) →
      AddAppointment body uuid storeOk = ⟨.missingField, []⟩) ∧
    statusOf .missingField = 400 := by
  refine ⟨?_, ?_, rfl⟩
  · intro h
    rcases h with h | h <;> have hf := absentOrEmpty_falsy _ h <;>
      simp [AddUser, hf]
  · intro h
    rcases h with h | h | h <;> have hf := absentOrEmpty_falsy _ h <;>
      simp [AddAppointment, hf]

/-- Witness for C6_thm at the empty request body. -/
theorem C6_witness :
    AddUser [] "u0" true = ⟨.missingField, []⟩ ∧
    AddAppointment [] "u0" true = ⟨.missingField, []⟩ ∧
    statusOf .missingField = 400 := by
  have h := C6_thm [] "u0" true
  exact ⟨h.1 (Or.inl (Or.inl rfl)), h.2.1 (Or.inl (Or.inl rfl)), h.2.2⟩

/-! ## Claim C7 -/

/-- Claim C7: the GetUsers shaping returns exactly the fetched records
whose name field is present and truthy, in store order, each projected to
the two keys id and name only. -/
theorem C7_thm (l : List Dict) :
    GetUsers l = (l.filter fun u => pyTruthyOpt (dictGet u "name")).map projUser ∧
    (GetUsers l).all (fun r => r.map Prod.fst == ["id", "name"]) = true := by
  refine ⟨?_, GetUsers_keys l⟩
  induction l with
  | nil => rfl
  | cons u rest ih =>
    cases hdg : dictGet u "name" with
    | none => simp [GetUsers, List.filter_cons, hdg, pyTruthyOpt, ih]
    | some v =>
      cases hv : pyTruthy v <;>
        simp [GetUsers, List.filter_cons, hdg, pyTruthyOpt, hv, ih]

/-! ## Claim C8 -/

/-- Claim C8: a user-creation request with non-empty name and email
yields the 201 created outcome whose record carries the injected fresh
identifier, the submitted name and email, the fixed default availability
(Mon to Fri, 08:00 to 16:00), and the tenant tag. -/
theorem C8_thm (body : Dict) (uuid : String) (n e : String)
    (hn : dictGet body "name" = some (jStr n)) (hne : n ≠ "")
    (he : dictGet body "email" = some (jStr e)) (hee : e ≠ "") :
    AddUser body uuid true =
      ⟨.created [("id", jStr uuid), ("name", jStr n), ("email", jStr e),
                 ("availability", defaultAvailability), ("TenantId", jStr TENANT_ID_VALUE)],
       [[("id", jStr uuid), ("name", jStr n), ("email", jStr e),
         ("availability", defaultAvailability), ("TenantId", jStr TENANT_ID_VALUE)]]⟩ ∧
    statusOf (.created [("id", jStr uuid), ("name", jStr n), ("email", jStr e),
                 ("availability", defaultAvailability),
                 ("TenantId", jStr TENANT_ID_VALUE)]) = 201 := by
  refine ⟨?_, rfl⟩
  simp [AddUser, hn, he, pyTruthy, pyTruthyOpt, hne, hee]

/-- Witness for C8_thm at a concrete valid request. -/
theorem C8_witness :
    AddUser [("name", jStr "Alice"), ("email", jStr "a@x.com")] "w8" true =
      ⟨.created [("id", jStr "w8"), ("name", jStr "Alice"), ("email", jStr "a@x.com"),
                 ("availability", defaultAvailability), ("TenantId", jStr TENANT_ID_VALUE)],
       [[("id", jStr "w8"), ("name", jStr "Alice"), ("email", jStr "a@x.com"),
         ("availability", defaultAvailability), ("TenantId", jStr TENANT_ID_VALUE)]]⟩ ∧
    statusOf (.created [("id", jStr "w8"), ("name", jStr "Alice"), ("email", jStr "a@x.com"),
                 ("availability", defaultAvailability),
                 ("TenantId", jStr TENANT_ID_VALUE)]) = 201 := by
  exact C8_thm [("name", jStr "Alice"), ("email", jStr "a@x.com")] "w8" "Alice" "a@x.com"
    rfl (by decide) rfl (by decide)

/-! ## Claim C9 -/

/-- Claim C9: every record either creation handler commits to the store
carries the TenantId key bound to the single fixed tenant constant. -/
theorem C9_thm (body : Dict) (uuid : String) (storeOk : Bool) (r : Dict)
    (h : r ∈ (AddUser body uuid storeOk).writes ∨
         r ∈ (AddAppointment body uuid storeOk).writes) :
    dictGet r "TenantId" = some (jStr TENANT_ID_VALUE) := by
  rcases h with h | h
  · simp only [AddUser] at h
    split at h
    · simp at h
    · split at h
      · simp at h
        subst h
        rfl
      · simp at h
  · simp only [AddAppointment] at h
    split at h
    · simp at h
    · split at h
      · split at h
        · simp at h
        · split at h
          · simp at h
          · split at h
            · simp at h
              subst h
              rfl
            · simp at h
      · simp at h

/-- Witness for C9_thm at a record committed by a concrete AddUser run. -/
theorem C9_witness :
    dictGet [("id", jStr "w9"), ("name", jStr "A"), ("email", jStr "e@x"),
             ("availability", defaultAvailability), ("TenantId", jStr TENANT_ID_VALUE)]
        "TenantId" = some (jStr TENANT_ID_VALUE) := by
  exact C9_thm [("name", jStr "A"), ("email", jStr "e@x")] "w9" true
    [("id", jStr "w9"), ("name", jStr "A"), ("email", jStr "e@x"),
     ("availability", defaultAvailability), ("TenantId", jStr TENANT_ID_VALUE)]
    (Or.inl (List.Mem.head _))

/-! ## Claim C10 -/

/-- Claim C10: every record the appointment handler writes lacks a name
key, so the GetUsers shaping ignores it wherever it sits in the fetched
list: listing users never returns an appointment record. -/
theorem C10_thm (body : Dict) (uuid : String) (storeOk : Bool) (r : Dict)
    (h : r ∈ (AddAppointment body uuid storeOk).writes) :
    dictGet r "name" = none ∧
    ∀ l1 l2 : List Dict, GetUsers (l1 ++ r :: l2) = GetUsers (l1 ++ l2) := by
  simp only [AddAppointment] at h
  split at h
  · simp at h
  · split at h
    · split at h
      · simp at h
      · split at h
        · simp at h
        · split at h
          · simp at h
            subst h
            exact ⟨rfl, GetUsers_skip _ rfl⟩
          · simp at h
    · simp at h

/-- Witness for C10_thm: a concrete appointment record is transparent to
the users listing. -/
theorem C10_witness :
    dictGet [("id", jStr "w10"), ("user_id", jStr "u1"), ("client_name", jStr "Bob"),
             ("start_time", jStr "2024-01-01T10:00:00Z"),
             ("end_time", jStr "2024-01-01T10:30:00Z"),
             ("TenantId", jStr TENANT_ID_VALUE)] "name" = none ∧
    GetUsers ([[("id", jStr "idA"), ("name", jStr "Alice")]] ++
        [("id", jStr "w10"), ("user_id", jStr "u1"), ("client_name", jStr "Bob"),
         ("start_time", jStr "2024-01-01T10:00:00Z"),
         ("end_time", jStr "2024-01-01T10:30:00Z"),
         ("TenantId", jStr TENANT_ID_VALUE)] :: []) =
      GetUsers ([[("id", jStr "idA"), ("name", jStr "Alice")]] ++ []) := by
  have h := C10_thm
    [("user_id", jStr "u1"), ("client_name", jStr "Bob"),
     ("start_time_iso", jStr "2024-01-01T10:00:00Z")] "w10" true
    [("id", jStr "w10"), ("user_id", jStr "u1"), ("client_name", jStr "Bob"),
     ("start_time", jStr "2024-01-01T10:00:00Z"),
     ("end_time", jStr "2024-01-01T10:30:00Z"),
     ("TenantId", jStr TENANT_ID_VALUE)]
    (List.Mem.head _)
  exact ⟨h.1, h.2 [[("id", jStr "idA"), ("name", jStr "Alice")]] []⟩
